import Mathlib

/-!
Verification development for the TimeFlow time-tracking application.

The Python sources are embedded shallowly:

* A timestamp string in the fixed format `%Y-%m-%dT%H:%M:%S` is represented
  by the structure `DT` (its six fields); an arbitrary time string is
  `Timestr := Option DT`, where `some dt` stands for a string that
  `datetime.strptime` parses to `dt` and `none` for an unparseable one.
  `datetime` subtraction and comparison are modelled through `DT.toSecs`,
  the signed count of seconds since 1970-01-01T00:00:00 computed with the
  standard civil-calendar day count; on the second-precision datetimes this
  format produces, `total_seconds()` is an exact integer and tuple
  comparison of datetimes agrees with comparison of `toSecs`.
* Python floats are modelled as exact rationals `ℚ`.
* The SQLite database is modelled at two levels, matching the two layers of
  the code that the claims address: `Store` holds the dataclass-level rows
  the model modules (`models/client.py`, `models/project.py`,
  `models/time_entry.py`) read and write, and `RawDB` holds untyped rows
  (lists of SQL values) as seen by the backup code in `models/settings.py`,
  whose SQL is generic over tables and columns.
* A fallible Python operation (`strptime` raising `ValueError`) is an
  `Option` result: `none` means the exception propagates and nothing after
  the raising statement executes.
-/

namespace Timeflow

/-! ### Datetimes (`config.DATETIME_FORMAT = %Y-%m-%dT%H:%M:%S`) -/

/-- A parsed datetime of the fixed format: the six components
`datetime.strptime` extracts.  Created only with in-range fields when it
stands for a `strptime` result. -/
structure DT where
  year : Int
  month : Nat
  day : Nat
  hour : Nat
  minute : Nat
  second : Nat
deriving DecidableEq, Repr

/-- Day count of a civil date from 1970-01-01 (Howard Hinnant's
`days_from_civil`); all divisions see non-negative operands for years ≥ 1,
where Lean division agrees with C-style division. -/
def daysFromCivil (y : Int) (m d : Nat) : Int :=
  let y2 : Int := if (m : Int) ≤ 2 then y - 1 else y
  let era : Int := (if 0 ≤ y2 then y2 else y2 - 399) / 400
  let yoe : Int := y2 - era * 400
  let mp : Int := ((m : Int) + 9) % 12
  let doy : Int := (153 * mp + 2) / 5 + (d : Int) - 1
  let doe : Int := yoe * 365 + yoe / 4 - yoe / 100 + doy
  era * 146097 + doe - 719468

/-- Seconds since 1970-01-01T00:00:00; `datetime` subtraction
`int((b - a).total_seconds())` equals `b.toSecs - a.toSecs` and datetime
comparison agrees with comparison of `toSecs` on valid datetimes. -/
def DT.toSecs (dt : DT) : Int :=
  daysFromCivil dt.year dt.month dt.day * 86400
    + (dt.hour : Int) * 3600 + (dt.minute : Int) * 60 + (dt.second : Int)

/-- Whether a (proleptic Gregorian) year is a leap year. -/
def isLeap (y : Int) : Bool :=
  (y % 4 == 0 && y % 100 != 0) || y % 400 == 0

/-- Days in a month, as `datetime` accepts them. -/
def daysInMonth (y : Int) (m : Nat) : Nat :=
  if m = 2 then (if isLeap y then 29 else 28)
  else if m = 4 ∨ m = 6 ∨ m = 9 ∨ m = 11 then 30
  else 31

/-- The field ranges `datetime.strptime` accepts for this format: exactly the
datetimes a string of the format can denote. -/
def DT.Valid (dt : DT) : Prop :=
  1 ≤ dt.year ∧ dt.year ≤ 9999
    ∧ 1 ≤ dt.month ∧ dt.month ≤ 12
    ∧ 1 ≤ dt.day ∧ dt.day ≤ daysInMonth dt.year dt.month
    ∧ dt.hour ≤ 23 ∧ dt.minute ≤ 59 ∧ dt.second ≤ 59

instance (dt : DT) : Decidable dt.Valid := by
  unfold DT.Valid; infer_instance

/-- Abstraction of an arbitrary Python time string: `some dt` is a string
that parses to `dt` under the fixed format, `none` an unparseable one. -/
def Timestr : Type := Option DT
deriving instance DecidableEq, Repr for Timestr

/-- `datetime.strptime(s, DATETIME_FORMAT)` on the abstraction: the parse
result when the string parses, `none` when `ValueError` is raised. -/
def strptime (s : Timestr) : Option DT := s

/-- Day of week of a civil date with Monday = 0 (the convention of
`pandas.Series.dt.dayofweek`); 1970-01-01 was a Thursday (3). -/
def dayOfWeek (y : Int) (m d : Nat) : Int :=
  (daysFromCivil y m d + 3) % 7

/-! ### Dataclass rows (`models/client.py`, `models/project.py`,
`models/tag.py`, `models/time_entry.py` dataclasses) -/

/-- `models.client.Client`. -/
structure Client where
  id : Int
  name : String
  archived : Bool
  created_at : Timestr
  updated_at : Timestr
deriving DecidableEq, Repr

/-- `models.project.Project`. -/
structure Project where
  id : Int
  name : String
  color : String
  client_id : Option Int
  billable : Bool
  hourly_rate : ℚ
  archived : Bool
  created_at : Timestr
  updated_at : Timestr
deriving DecidableEq, Repr

/-- `models.tag.Tag`. -/
structure Tag where
  id : Int
  name : String
  created_at : Timestr
deriving DecidableEq, Repr

/-- `models.time_entry.TimeEntry`; `stop_time` is a nullable time string
(`none` = SQL NULL = running entry). `tags` is the in-memory tag-id list. -/
structure TimeEntry where
  id : Int
  description : String
  project_id : Option Int
  start_time : Timestr
  stop_time : Option Timestr
  duration_seconds : Option Int
  billable : Bool
  created_at : Timestr
  updated_at : Timestr
  tags : List Int
deriving DecidableEq, Repr

/-- The model-layer view of the database: one list per table, in row order.
`tetags` is the `time_entry_tags` junction table as
(time_entry_id, tag_id) pairs. -/
structure Store where
  clients : List Client
  projects : List Project
  tags : List Tag
  entries : List TimeEntry
  tetags : List (Int × Int)
deriving DecidableEq, Repr

/-- The rowid SQLite assigns to a fresh `time_entries` row
(`cursor.lastrowid`): one more than the largest existing id. -/
def nextEntryId (s : Store) : Int :=
  1 + (s.entries.map TimeEntry.id).foldr max 0

/-! ### `models/time_entry.py` -/

/-- `time_entry.create` (src/models/time_entry.py lines 53-129).  `now` is
`datetime.now()` at call time.  Returns `none` when the duration derivation
parses `start_time`/`stop_time` and `strptime` raises (no row inserted),
else the created entry and the new store. -/
def TimeEntryModel.create (now : DT) (start_time : Timestr) (description : String := "")
    (project_id : Option Int := none) (stop_time : Option Timestr := none)
    (duration_seconds : Option Int := none) (billable : Bool := false)
    (tag_ids : Option (List Int) := none) (s : Store) :
    Option (TimeEntry × Store) :=
  let computed : Option (Option Int) :=
    match stop_time, duration_seconds with
    | some st, none =>
      match strptime start_time, strptime st with
      | some sdt, some edt => some (some (edt.toSecs - sdt.toSecs))
      | _, _ => none
    | _, d => some d
  match computed with
  | none => none
  | some dur =>
    let eid := nextEntryId s
    let assigned := tag_ids.getD []
    let e : TimeEntry :=
      { id := eid, description := description, project_id := project_id
        start_time := start_time, stop_time := stop_time
        duration_seconds := dur, billable := billable
        created_at := some now, updated_at := some now, tags := assigned }
    some (e, { s with entries := s.entries ++ [e]
                      tetags := s.tetags ++ assigned.map (fun t => (eid, t)) })

/-- `time_entry.get_by_id` (lines 132-153): first row with the id. -/
def TimeEntryModel.get_by_id (entry_id : Int) (s : Store) : Option TimeEntry :=
  s.entries.find? (fun e => e.id == entry_id)

/-- The three-state argument of the sentinel-aware update parameters: the
default `...` (leave unchanged) against an explicit value (possibly `None`,
meaning clear). -/
inductive Arg (α : Type) where
  | keep : Arg α
  | set (v : α) : Arg α
deriving DecidableEq, Repr

/-- `time_entry.update` (lines 174-259).  `project_id`, `stop_time` and
`duration_seconds` are sentinel-aware; the remaining optional fields treat
`none` as no change.  Returns the updated entry (or `none` if the id is
unknown) along with the store. -/
def TimeEntryModel.update (now : DT) (entry_id : Int)
    (description : Option String := none) (project_id : Arg (Option Int) := .keep)
    (start_time : Option Timestr := none) (stop_time : Arg (Option Timestr) := .keep)
    (duration_seconds : Arg (Option Int) := .keep) (billable : Option Bool := none)
    (tag_ids : Option (List Int) := none) (s : Store) :
    Option TimeEntry × Store :=
  match TimeEntryModel.get_by_id entry_id s with
  | none => (none, s)
  | some existing =>
    let new_description := description.getD existing.description
    let new_project_id := match project_id with | .keep => existing.project_id | .set v => v
    let new_start_time := start_time.getD existing.start_time
    let new_stop_time := match stop_time with | .keep => existing.stop_time | .set v => v
    let new_duration := match duration_seconds with | .keep => existing.duration_seconds | .set v => v
    let new_billable := billable.getD existing.billable
    let entries2 := s.entries.map (fun e =>
      if e.id == entry_id then
        { e with description := new_description, project_id := new_project_id
                 start_time := new_start_time, stop_time := new_stop_time
                 duration_seconds := new_duration, billable := new_billable
                 updated_at := some now }
      else e)
    let tetags2 := match tag_ids with
      | none => s.tetags
      | some ts => s.tetags.filter (fun r => r.1 != entry_id) ++ ts.map (fun t => (entry_id, t))
    let new_tags := tag_ids.getD existing.tags
    (some { id := entry_id, description := new_description, project_id := new_project_id
            start_time := new_start_time, stop_time := new_stop_time
            duration_seconds := new_duration, billable := new_billable
            created_at := existing.created_at, updated_at := some now, tags := new_tags },
     { s with entries := entries2, tetags := tetags2 })

/-- `time_entry.stop_entry` (lines 306-354).  Outer `none` when `strptime`
on the stored start time or on the given stop time raises (id found, but no
row updated); `some (none, s)` when the id is unknown. -/
def TimeEntryModel.stop_entry (now : DT) (entry_id : Int)
    (stop_time : Option Timestr := none) (s : Store) :
    Option (Option TimeEntry × Store) :=
  match TimeEntryModel.get_by_id entry_id s with
  | none => some (none, s)
  | some existing =>
    let st : Timestr := match stop_time with | none => some now | some t => t
    match strptime existing.start_time, strptime st with
    | some sdt, some edt =>
      let duration := edt.toSecs - sdt.toSecs
      let entries2 := s.entries.map (fun e =>
        if e.id == entry_id then
          { e with stop_time := some st, duration_seconds := some duration
                   updated_at := some now }
        else e)
      some (some { existing with stop_time := some st, duration_seconds := some duration
                                 updated_at := some now },
            { s with entries := entries2 })
    | _, _ => none

/-! ### `models/client.py` -/

/-- `client.get_by_id` (src/models/client.py lines 62-81). -/
def ClientModel.get_by_id (client_id : Int) (s : Store) : Option Client :=
  s.clients.find? (fun c => c.id == client_id)

/-- `client.update` (lines 109-149): each optional field replaces only when
supplied; updates every row with the id and returns the updated client, or
`none` when the id is unknown. -/
def ClientModel.update (now : DT) (client_id : Int) (name : Option String := none)
    (archived : Option Bool := none) (s : Store) : Option Client × Store :=
  match ClientModel.get_by_id client_id s with
  | none => (none, s)
  | some existing =>
    let new_name := name.getD existing.name
    let new_archived := archived.getD existing.archived
    let clients2 := s.clients.map (fun c =>
      if c.id == client_id then
        { c with name := new_name, archived := new_archived, updated_at := some now }
      else c)
    (some { id := client_id, name := new_name, archived := new_archived
            created_at := existing.created_at, updated_at := some now },
     { s with clients := clients2 })

/-- Modelled from the spec: `client.get_project_count(id)` is absent from
src/models/client.py (only its callers in views/clients.py and its tests
exist); per §4.4 it is the count of all Projects referencing this Client,
archived included. -/
def ClientModel.get_project_count (client_id : Int) (s : Store) : Nat :=
  s.projects.countP (fun p => p.client_id == some client_id)

/-- Modelled from the spec: `client.has_active_projects(id)` is absent from
src/models/client.py (only its callers in views/clients.py and its tests
exist); per §4.4 it is true if any non-archived Project references this
Client. -/
def ClientModel.has_active_projects (client_id : Int) (s : Store) : Bool :=
  s.projects.any (fun p => p.client_id == some client_id && !p.archived)

/-! ### `models/project.py` -/

/-- `project.update` restricted to the archive flag, the form in which the
Projects page archive control calls it
(src/models/project.py lines 135-203 with only `archived` supplied). -/
def ProjectModel.update_archived (now : DT) (project_id : Int) (archived : Bool)
    (s : Store) : Option Project × Store :=
  match s.projects.find? (fun p => p.id == project_id) with
  | none => (none, s)
  | some existing =>
    let projects2 := s.projects.map (fun p =>
      if p.id == project_id then { p with archived := archived, updated_at := some now }
      else p)
    (some { existing with archived := archived, updated_at := some now },
     { s with projects := projects2 })

/-! ### `views/clients.py` -/

/-- The archive branch of `_render_client_card` (src/views/clients.py lines
141-150) for a displayed client `c`: consult `has_active_projects`; on true
show an error and mutate nothing, else `client_model.update(c.id,
archived=True)`.  Returns the page error (if any) and the store.  The
source message quotes the client name; the quotes are elided here. -/
def archive_client_action (now : DT) (c : Client) (s : Store) : Option String × Store :=
  if ClientModel.has_active_projects c.id s then
    (some ("Cannot archive " ++ c.name
        ++ ": this client has active (non-archived) projects. "
        ++ "Archive or reassign those projects first."), s)
  else
    (none, (ClientModel.update now c.id none (some true) s).2)

/-- Archiving every non-archived project of a client, as the Projects page
archive control does one by one: `project.update(p.id, archived=True)` for
each project referencing the client. -/
def archive_projects_of (now : DT) (client_id : Int) (s : Store) : Store :=
  { s with projects := s.projects.map (fun p =>
      if p.client_id == some client_id && !p.archived then
        { p with archived := true, updated_at := some now }
      else p) }

/-! ### `models/tag.py` and `views/tags.py` -/

/-- `tag.get_by_id` (src/models/tag.py lines 52-71). -/
def TagModel.get_by_id (tag_id : Int) (s : Store) : Option Tag :=
  s.tags.find? (fun t => t.id == tag_id)

/-- Modelled from the spec: `tag.get_usage_count(id)` is absent from
src/models/tag.py (only its callers in views/tags.py and its tests exist);
per §4.6 it counts junction rows referencing the tag. -/
def TagModel.get_usage_count (tag_id : Int) (s : Store) : Nat :=
  s.tetags.countP (fun r => r.2 == tag_id)

/-- The arguments `_render_tag_grid` (src/views/tags.py lines 83-87) passes
to `tag_pill` for a tag: its name and its usage count. -/
def tag_pill_args (t : Tag) (s : Store) : String × Nat :=
  (t.name, TagModel.get_usage_count t.id s)

/-- The expander label of `_render_tag_edit_row` (src/views/tags.py lines
101-110): name, usage count and singular/plural word. -/
def tag_edit_row_label (t : Tag) (s : Store) : String :=
  let usage_count := TagModel.get_usage_count t.id s
  let entry_word := if usage_count == 1 then "entry" else "entries"
  t.name ++ " — " ++ toString usage_count ++ " " ++ entry_word

/-- The count-dependent sentence `_render_delete_confirmation`
(src/views/tags.py lines 154-159) appends to its warning when the usage
count is positive (source text without its apostrophes). -/
def delete_confirmation_suffix (tag_id : Int) (s : Store) : String :=
  let usage_count := TagModel.get_usage_count tag_id s
  if usage_count > 0 then
    let entry_word := if usage_count == 1 then "entry" else "entries"
    " It will be removed from " ++ toString usage_count ++ " time " ++ entry_word ++ "."
  else ""

/-! ### `ui/state.py` -/

/-- The session-state fields `init_timer_state` manages
(src/ui/state.py lines 11-24). -/
structure Session where
  timer_running : Bool
  active_entry_id : Option Int
  timer_description : String
  timer_project_id : Option Int
  timer_tag_ids : List Int
  confirm_delete_id : Option Int
deriving DecidableEq, Repr

/-- `state.stop_timer` (src/ui/state.py lines 79-100): look up the session
active id; when present call `stop_entry` with `stop_time = now`, then
reset the five timer fields regardless of its result.  Outer `none` when
`stop_entry` raises (before the session fields are assigned). -/
def stop_timer (now : DT) (sess : Session) (s : Store) :
    Option (Option TimeEntry × Session × Store) :=
  match sess.active_entry_id with
  | none => some (none, sess, s)
  | some entry_id =>
    match TimeEntryModel.stop_entry now entry_id (some (some now)) s with
    | none => none
    | some (stopped, s2) =>
      some (stopped,
        { sess with timer_running := false, active_entry_id := none
                    timer_description := "", timer_project_id := none
                    timer_tag_ids := [] },
        s2)

/-- `state.validate_manual_entry` (src/ui/state.py lines 207-237): parse
both times, require end strictly after start and a duration of at most
86400 seconds; returns the success flag and the error message. -/
def validate_manual_entry (start_time end_time : Timestr) : Bool × String :=
  match strptime start_time with
  | none => (false, "Invalid start time format.")
  | some start_dt =>
    match strptime end_time with
    | none => (false, "Invalid end time format.")
    | some end_dt =>
      if end_dt.toSecs ≤ start_dt.toSecs then
        (false, "End time must be after start time.")
      else
        let duration := end_dt.toSecs - start_dt.toSecs
        if duration > 86400 then (false, "Duration cannot exceed 24 hours.")
        else (true, "")

/-! ### `services/reports.py` -/

/-- A calendar date, the `start_date`/`end_date` arguments of the report
functions (format `%Y-%m-%d`). -/
structure DateD where
  year : Int
  month : Nat
  day : Nat
deriving DecidableEq, Repr

/-- One row of the DataFrame `_fetch_entries_df` builds
(src/services/reports.py lines 20-130): the joined and filtered entry with
its display fields.  `start` is the parsed start time; the `date` column
(the first ten characters of `start_time`) is recovered from it. -/
structure FetchedRow where
  id : Int
  description : String
  project_id : Option Int
  project_name : String
  project_color : String
  client_id : Option Int
  client_name : String
  start : DT
  stop_time : Option Timestr
  duration_seconds : Int
  billable : Bool
  hourly_rate : ℚ
deriving DecidableEq, Repr

/-- The `date` column of a fetched row: the date part of its start time. -/
def FetchedRow.date (r : FetchedRow) : DateD :=
  ⟨r.start.year, r.start.month, r.start.day⟩

/-- The filters of `_fetch_entries_df`: optional project-id, client-id and
tag-id lists and an optional billable flag.  An empty Python list is falsy,
so `[]` behaves like `None`; both are `none` here. -/
structure Filters where
  project_ids : Option (List Int) := none
  client_ids : Option (List Int) := none
  tag_ids : Option (List Int) := none
  billable : Option Bool := none

/-- Whether an entry passes the WHERE clause of `_fetch_entries_df` for the
window `[start_dateT00:00:00, end_dateT23:59:59]` and the filters.  The SQL
compares the `start_time` text with the window bounds; on strings of the
fixed zero-padded format that is the chronological comparison modelled via
`toSecs` (entries whose `start_time` is not in the format are outside this
model: `pd.to_datetime` would raise on them downstream). -/
def entryMatches (s : Store) (start_date end_date : DateD) (f : Filters)
    (e : TimeEntry) (sdt : DT) : Bool :=
  let lo : DT := ⟨start_date.year, start_date.month, start_date.day, 0, 0, 0⟩
  let hi : DT := ⟨end_date.year, end_date.month, end_date.day, 23, 59, 59⟩
  let p := e.project_id.bind (fun pid => s.projects.find? (fun p => p.id == pid))
  decide (lo.toSecs ≤ sdt.toSecs) && decide (sdt.toSecs ≤ hi.toSecs)
    && (match f.project_ids with
        | none => true
        | some ids => match e.project_id with
          | none => false
          | some pid => ids.contains pid)
    && (match f.client_ids with
        | none => true
        | some ids => match p.bind Project.client_id with
          | none => false
          | some cid => ids.contains cid)
    && (match f.billable with
        | none => true
        | some b => e.billable == b)
    && (match f.tag_ids with
        | none => true
        | some ids => s.tetags.any (fun r => r.1 == e.id && ids.contains r.2))

/-- The row `_fetch_entries_df` builds for a matching entry: LEFT JOIN to
projects and clients with the `No project` / `#888888` / `No client`
COALESCE fallbacks, and the `(no description)` placeholder for an empty
description. -/
def buildFetchedRow (s : Store) (e : TimeEntry) (sdt : DT) (dur : Int) : FetchedRow :=
  let p := e.project_id.bind (fun pid => s.projects.find? (fun pr => pr.id == pid))
  let client_id := p.bind Project.client_id
  let c := client_id.bind (fun cid => s.clients.find? (fun cl => cl.id == cid))
  { id := e.id
    description := if e.description == "" then "(no description)" else e.description
    project_id := e.project_id
    project_name := (p.map Project.name).getD "No project"
    project_color := (p.map Project.color).getD "#888888"
    client_id := client_id
    client_name := (c.map Client.name).getD "No client"
    start := sdt
    stop_time := e.stop_time
    duration_seconds := dur
    billable := e.billable
    hourly_rate := (p.map Project.hourly_rate).getD 0 }

/-- `_fetch_entries_df` (src/services/reports.py lines 20-130): completed
entries (`duration_seconds IS NOT NULL`) in the window passing the filters,
joined for display fields, ordered by `start_time` descending. -/
def fetch_entries_df (s : Store) (start_date end_date : DateD) (f : Filters) :
    List FetchedRow :=
  let rows := s.entries.filterMap (fun e =>
    match e.duration_seconds, strptime e.start_time with
    | some dur, some sdt =>
      if entryMatches s start_date end_date f e sdt then
        some (buildFetchedRow s e sdt dur)
      else none
    | _, _ => none)
  List.insertionSort (fun a b => b.start.toSecs ≤ a.start.toSecs) rows

/-- One row of the `weekly_report` pivot: the project name, the seven day
columns Mon..Sun as hours, and the Total column. -/
structure PivotRow where
  project_name : String
  days : Fin 7 → ℚ
  total : ℚ

/-- The hours a list of fetched rows contributes to pivot cell
(project, day-of-week): the `aggfunc=sum` of `pivot_table` with
`fill_value=0.0`. -/
def pivotCell (rows : List FetchedRow) (p : String) (i : Fin 7) : ℚ :=
  (rows.filterMap (fun r =>
    if r.project_name == p && dayOfWeek r.date.year r.date.month r.date.day == (i : Int)
    then some ((r.duration_seconds : ℚ) / 3600)
    else none)).sum

/-- Descending order on the Total column, the comparison of
`sort_values("Total", ascending=False)`. -/
def totalDescLE (a b : PivotRow) : Prop := b.total ≤ a.total

instance : DecidableRel totalDescLE := fun a b => by
  unfold totalDescLE; infer_instance

instance : IsTotal PivotRow totalDescLE :=
  ⟨fun a b => (le_total b.total a.total).imp id id⟩

instance : IsTrans PivotRow totalDescLE :=
  ⟨fun _ _ _ h1 h2 => le_trans h2 h1⟩

/-- The project rows of the `weekly_report` pivot before the Total sort:
one row per distinct project name (`pivot_table` sorts its index; the index
order before the Total sort does not affect any pivot value), each with all
seven zero-filled day columns and the per-row Total of lines 509-516. -/
def pivotRowsOf (df : List FetchedRow) : List PivotRow :=
  (List.insertionSort (· ≤ ·) (df.map FetchedRow.project_name).dedup).map (fun p =>
    { project_name := p, days := fun i => pivotCell df p i
      total := ∑ i : Fin 7, pivotCell df p i })

/-- The synthetic `Total` row of lines 522-524: the column-wise sums over
the project rows, the Total cell summing the per-row Totals. -/
def pivotTotalsRow (rows : List PivotRow) : PivotRow :=
  { project_name := "Total"
    days := fun i => (rows.map (fun r => r.days i)).sum
    total := (rows.map PivotRow.total).sum }

/-- `weekly_report` (src/services/reports.py lines 452-529): fetch, pivot
hours by project and day of week (Monday=0) with every day column present
and zero-filled, add the per-row Total, sort rows descending by Total and
append the synthetic `Total` row of column sums.  The empty fetch returns
the empty pivot. -/
def weekly_report (s : Store) (start_date end_date : DateD) (f : Filters) :
    List PivotRow :=
  let df := fetch_entries_df s start_date end_date f
  if df.isEmpty then []
  else
    let sorted := List.insertionSort totalDescLE (pivotRowsOf df)
    sorted ++ [pivotTotalsRow sorted]

/-- The per-entry billable amount of the grouped summary functions, the
lambda applied row-wise at src/services/reports.py lines 204-208 (and again
at 262-266, 320-324 and 412-416). -/
def summary_entry_billable_amount (row : FetchedRow) : ℚ :=
  if row.billable then ((row.duration_seconds : ℚ) / 3600) * row.hourly_rate else 0

/-- `calculate_billable_amount` (src/services/reports.py lines 532-549). -/
def calculate_billable_amount (duration_seconds : Int) (hourly_rate : ℚ)
    (is_billable : Bool) : ℚ :=
  if !is_billable || hourly_rate ≤ 0 then 0
  else ((duration_seconds : ℚ) / 3600) * hourly_rate

/-! ### `models/settings.py` backup and restore

The backup code is generic over tables and columns (`SELECT *`, insert
column lists taken from the data), so it is embedded over untyped rows: a
row is the list of its SQL values in schema column order, a table the list
of its rows in `SELECT *` order (rowid order, which reinsertion in array
order reproduces). -/

/-- A SQL value as sqlite3 returns and accepts it. -/
inductive Value where
  | null : Value
  | int (n : Int) : Value
  | real (q : ℚ) : Value
  | text (s : String) : Value
deriving DecidableEq, Repr

/-- An untyped table row: the values in schema column order. -/
def Row : Type := List Value
deriving instance DecidableEq, Repr for Row

/-- The six tables, as the raw rows the backup code reads and writes. -/
structure RawDB where
  clients : List Row
  projects : List Row
  tags : List Row
  time_entries : List Row
  time_entry_tags : List Row
  settings : List Row
deriving DecidableEq, Repr

/-- A parsed JSON value, the result of `json.loads`. -/
inductive Json where
  | null : Json
  | bool (b : Bool) : Json
  | num (q : ℚ) : Json
  | str (s : String) : Json
  | arr (elems : List Json) : Json
  | obj (fields : List (String × Json)) : Json

/-- Whether `isinstance(data, dict)` holds of a parsed value. -/
def Json.isObj : Json → Bool
  | .obj _ => true
  | _ => false

/-- `d.get(key, default)` on a parsed object for a list default, as
`import_all_data` uses it per table; a parsed backup object maps each table
name to an array. -/
def Json.getTable (j : Json) (key : String) : List Json :=
  match j with
  | .obj fields =>
    match fields.lookup key with
    | some (.arr xs) => xs
    | _ => []
  | _ => []

/-- `row.keys()` of a parsed row object (as a list, in object order). -/
def Json.keys : Json → List String
  | .obj fields => fields.map Prod.fst
  | _ => []

/-- `row.get(col)` on a parsed row object: the value, or JSON null for a
missing key (Python `None`). -/
def Json.getD (j : Json) (key : String) : Json :=
  match j with
  | .obj fields => (fields.lookup key).getD .null
  | _ => .null

/-- How sqlite3 adapts a parsed JSON scalar into a stored SQL value:
`None` to NULL, bool to 0/1, numbers to INTEGER or REAL, strings to TEXT.
(An array or object would raise in the source; none occurs in a backup.) -/
def jsonToValue : Json → Value
  | .null => .null
  | .bool b => .int (if b then 1 else 0)
  | .num q => if q.den = 1 then .int q.num else .real q
  | .str s => .text s
  | .arr _ => .null
  | .obj _ => .null

/-- How a stored SQL value appears in the parsed export JSON. -/
def valueToJson : Value → Json
  | .null => .null
  | .int n => .num n
  | .real q => .num q
  | .text s => .str s

/-- Modelled from the spec: the schema file defining the column lists is not
under src/; §3 and §6 give each table its columns (a client row has
`id, name, archived, created_at, updated_at`, and so on).  Only their
distinctness and count matter to the theorems below. -/
def tableCols : String → List String
  | "clients" => ["id", "name", "archived", "created_at", "updated_at"]
  | "projects" => ["id", "name", "color", "client_id", "billable", "hourly_rate",
                   "archived", "created_at", "updated_at"]
  | "tags" => ["id", "name", "created_at"]
  | "time_entries" => ["id", "description", "project_id", "start_time", "stop_time",
                       "duration_seconds", "billable", "created_at", "updated_at"]
  | "time_entry_tags" => ["time_entry_id", "tag_id"]
  | _ => ["key", "value"]

/-- The rows of a named table of a `RawDB`. -/
def RawDB.table (db : RawDB) : String → List Row
  | "clients" => db.clients
  | "projects" => db.projects
  | "tags" => db.tags
  | "time_entries" => db.time_entries
  | "time_entry_tags" => db.time_entry_tags
  | _ => db.settings

/-- One exported table: the array of row objects keyed by column name
(`dict(zip(columns, row))`). -/
def exportTable (cols : List String) (rows : List Row) : Json :=
  .arr (rows.map (fun r => .obj (cols.zip (r.map valueToJson))))

/-- `export_all_data` (src/models/settings.py lines 110-133) at the JSON
value level: the object keyed by table name in the fixed order.  The
`json.dumps`/`json.loads` text round trip is the identity on this value,
so serialization is elided. -/
def export_all_data (db : RawDB) : Json :=
  .obj (["clients", "projects", "tags", "time_entries", "time_entry_tags",
         "settings"].map (fun t => (t, exportTable (tableCols t) (db.table t))))

/-- The insert loop of `import_all_data` over one parsed row array: the
column list is taken from the first row, each row contributes
`row.get(col)` per column (missing keys read as null); returns the
inserted rows and their count. -/
def importRows : List Json → List Row × Nat
  | [] => ([], 0)
  | r0 :: rest =>
    ((r0 :: rest).map (fun r => r0.keys.map (fun c => jsonToValue (r.getD c))),
     (r0 :: rest).length)

/-- The insert loop of `import_all_data` for one table of the parsed
backup object. -/
def importTable (j : Json) (t : String) : List Row × Nat :=
  importRows (j.getTable t)

/-- `import_all_data` (src/models/settings.py lines 136-191).  The input is
the `json.loads` outcome: `Except.error detail` when the text is malformed
(the `json.JSONDecodeError` detail), else the parsed value.  Failure paths
return the store untouched (the source raises before any DELETE); success
replaces every table and reports per-table insert counts in insert
order. -/
def import_all_data (parsed : Except String Json) (db : RawDB) :
    RawDB × Except String (List (String × Nat)) :=
  match parsed with
  | .error exc => (db, .error ("Invalid JSON: " ++ exc))
  | .ok data =>
    if !data.isObj then (db, .error "Expected a JSON object at the top level.")
    else
      let cl := importTable data "clients"
      let pr := importTable data "projects"
      let tg := importTable data "tags"
      let te := importTable data "time_entries"
      let tt := importTable data "time_entry_tags"
      let st := importTable data "settings"
      ({ clients := cl.1, projects := pr.1, tags := tg.1, time_entries := te.1
         time_entry_tags := tt.1, settings := st.1 },
       .ok [("clients", cl.2), ("projects", pr.2), ("tags", tg.2),
            ("time_entries", te.2), ("time_entry_tags", tt.2), ("settings", st.2)])

/-- A `RawDB` whose rows all have their schema arity, as every database
reachable through the application has. -/
def RawDB.WF (db : RawDB) : Prop :=
  ∀ t ∈ ["clients", "projects", "tags", "time_entries", "time_entry_tags",
         "settings"], ∀ r ∈ db.table t, List.length r = (tableCols t).length

instance (db : RawDB) : Decidable db.WF := by
  unfold RawDB.WF; infer_instance

/-! ### Concrete sample data for witnesses -/

/-- A fixed clock reading for witnesses. -/
def sampleNow : DT := ⟨2024, 1, 15, 12, 0, 0⟩

/-- 2024-01-15T09:00:00, the start time of the worked example of §8. -/
def sampleStart : DT := ⟨2024, 1, 15, 9, 0, 0⟩

/-- 2024-01-15T10:30:00, the stop time of the worked example of §8. -/
def sampleStop : DT := ⟨2024, 1, 15, 10, 30, 0⟩

/-- The empty store. -/
def emptyStore : Store := ⟨[], [], [], [], []⟩

/-- A completed sample entry: 2024-01-15 09:00 to 10:30, 5400 seconds. -/
def sampleEntry : TimeEntry :=
  ⟨1, "design", some 1, some sampleStart, some (some sampleStop), some 5400, true,
   some sampleNow, some sampleNow, [1]⟩

/-- The entry `create` builds from the sample times on the empty store. -/
def createdSample : TimeEntry :=
  ⟨1, "", none, some sampleStart, some (some sampleStop), some 5400, false,
   some sampleNow, some sampleNow, []⟩

/-- A sample client. -/
def sampleClient : Client := ⟨1, "Acme", false, some sampleNow, some sampleNow⟩

/-- A store with one client and one non-archived project referencing it. -/
def sampleStore : Store :=
  { clients := [sampleClient]
    projects := [⟨1, "Website", "#4A90D9", some 1, true, 120, false,
                  some sampleNow, some sampleNow⟩]
    tags := [⟨1, "deep-work", some sampleNow⟩]
    entries := [sampleEntry]
    tetags := [(1, 1)] }

/-- A raw database with one row per table, of schema arity. -/
def sampleRawDB : RawDB :=
  { clients := [[.int 1, .text "Acme", .int 0, .text "t", .text "t"]]
    projects := [[.int 1, .text "Website", .text "#4A90D9", .int 1, .int 1,
                  .real 120, .int 0, .text "t", .text "t"]]
    tags := [[.int 1, .text "deep-work", .text "t"]]
    time_entries := [[.int 1, .text "design", .int 1, .text "2024-01-15T09:00:00",
                      .text "2024-01-15T10:30:00", .int 5400, .int 1, .text "t",
                      .text "t"]]
    time_entry_tags := [[.int 1, .int 1]]
    settings := [[.text "timezone", .text "Europe/Prague"]] }

end Timeflow

namespace Timeflow

/-! ### Helper lemmas -/

/-- Looking each key of a Nodup association list built by `zip` back up
recovers exactly the zipped values. -/
theorem map_lookup_zip (ks : List String) (vs : List Json)
    (hnd : ks.Nodup) (hlen : vs.length = ks.length) :
    ks.map (fun k => ((ks.zip vs).lookup k).getD Json.null) = vs := by
  induction ks generalizing vs with
  | nil => cases vs with
    | nil => rfl
    | cons v vs => simp at hlen
  | cons k ks ih =>
    cases vs with
    | nil => simp at hlen
    | cons v vs =>
      simp only [List.zip_cons_cons, List.map_cons]
      have hk : (((k, v) :: ks.zip vs).lookup k) = some v := by
        simp [List.lookup]
      rw [hk]
      have hnotmem : k ∉ ks := (List.nodup_cons.mp hnd).1
      have htail : ks.map (fun k1 => ((((k, v) :: ks.zip vs)).lookup k1).getD Json.null)
          = ks.map (fun k1 => ((ks.zip vs).lookup k1).getD Json.null) := by
        apply List.map_congr_left
        intro k1 hk1
        have hne : (k1 == k) = false := by
          simp only [beq_eq_false_iff_ne, ne_eq]
          intro h; exact hnotmem (h ▸ hk1)
        simp [List.lookup, hne]
      rw [htail, ih vs (List.nodup_cons.mp hnd).2 (by simpa using hlen)]
      simp

/-- Re-serializing a value after sqlite3 stored its parsed JSON form gives
the original JSON back (an integral REAL comes back as the same number). -/
theorem valueToJson_jsonToValue_valueToJson (v : Value) :
    valueToJson (jsonToValue (valueToJson v)) = valueToJson v := by
  cases v with
  | null => rfl
  | int n => simp [valueToJson, jsonToValue]
  | real q =>
    by_cases h : q.den = 1
    · simp [valueToJson, jsonToValue, h, (Rat.den_eq_one_iff q).mp h]
    · simp [valueToJson, jsonToValue, h]
  | text s => rfl

/-! ### C9: manual entry validation -/

/-- C9: `validate_manual_entry` rejects an unparseable start time with a
message mentioning start/format, an unparseable end time with a message
mentioning end/format, an end time equal to or before the start time with a
message mentioning "after", and a duration strictly greater than 86400
seconds with a message referencing "24"; a duration of exactly 86400
seconds (and any positive one up to it) is accepted. -/
theorem validate_manual_entry_spec :
    (∀ e : Timestr, validate_manual_entry none e = (false, "Invalid start time format."))
    ∧ (∀ s : DT, validate_manual_entry (some s) none = (false, "Invalid end time format."))
    ∧ (∀ s e : DT, e.toSecs ≤ s.toSecs →
        validate_manual_entry (some s) (some e) = (false, "End time must be after start time."))
    ∧ (∀ s e : DT, s.toSecs < e.toSecs → 86400 < e.toSecs - s.toSecs →
        validate_manual_entry (some s) (some e) = (false, "Duration cannot exceed 24 hours."))
    ∧ (∀ s e : DT, s.toSecs < e.toSecs → e.toSecs - s.toSecs ≤ 86400 →
        validate_manual_entry (some s) (some e) = (true, "")) := by
  refine ⟨fun e => rfl, fun s => rfl, fun s e h => ?_, fun s e h1 h2 => ?_, fun s e h1 h2 => ?_⟩
  · simp [validate_manual_entry, strptime, h]
  · simp [validate_manual_entry, strptime, not_le.mpr h1, h2]
  · simp [validate_manual_entry, strptime, not_le.mpr h1, not_lt.mpr h2]

/-- Witness for C9 at concrete inputs, the exact-24-hours boundary
included: start 2024-01-15T09:00:00 with end one day later is accepted,
while one second beyond is rejected with the 24-hours message. -/
theorem validate_manual_entry_spec_witness :
    validate_manual_entry none (some sampleStop) = (false, "Invalid start time format.")
    ∧ validate_manual_entry (some sampleStart) none = (false, "Invalid end time format.")
    ∧ validate_manual_entry (some sampleStop) (some sampleStart)
        = (false, "End time must be after start time.")
    ∧ validate_manual_entry (some sampleStart) (some ⟨2024, 1, 16, 9, 0, 1⟩)
        = (false, "Duration cannot exceed 24 hours.")
    ∧ validate_manual_entry (some sampleStart) (some ⟨2024, 1, 16, 9, 0, 0⟩) = (true, "") :=
  ⟨validate_manual_entry_spec.1 (some sampleStop),
   validate_manual_entry_spec.2.1 sampleStart,
   validate_manual_entry_spec.2.2.1 sampleStop sampleStart (by decide),
   validate_manual_entry_spec.2.2.2.1 sampleStart ⟨2024, 1, 16, 9, 0, 1⟩
     (by decide) (by decide),
   validate_manual_entry_spec.2.2.2.2 sampleStart ⟨2024, 1, 16, 9, 0, 0⟩
     (by decide) (by decide)⟩

/-! ### C10: stop_timer on a stale session id -/

/-- C10: when the session holds an `active_entry_id` that matches no
existing entry, `stop_timer` returns `none` for the stopped entry but still
resets the timer fields: `timer_running` false, active id, description,
project selection and tag selections cleared; the store is untouched. -/
theorem stop_timer_stale_id (now : DT) (sess : Session) (s : Store) (eid : Int)
    (hid : sess.active_entry_id = some eid)
    (hmiss : ∀ e ∈ s.entries, e.id ≠ eid) :
    stop_timer now sess s =
      some (none,
        { sess with timer_running := false, active_entry_id := none
                    timer_description := "", timer_project_id := none
                    timer_tag_ids := [] },
        s) := by
  have hfind : TimeEntryModel.get_by_id eid s = none := by
    simp only [TimeEntryModel.get_by_id, List.find?_eq_none]
    intro e he
    simpa using hmiss e he
  simp [stop_timer, hid, TimeEntryModel.stop_entry, hfind]

/-- Witness for C10: a session claiming entry 5 is active over a store
that has no entry 5. -/
theorem stop_timer_stale_id_witness :
    stop_timer sampleNow ⟨true, some 5, "design", some 1, [1], none⟩ sampleStore
      = some (none, ⟨false, none, "", none, [], none⟩, sampleStore) := by
  have h := stop_timer_stale_id sampleNow ⟨true, some 5, "design", some 1, [1], none⟩
    sampleStore 5 rfl (by decide)
  simpa using h

/-! ### C4: duration derivation on create -/

/-- C4: creating an entry with parseable start `S` and stop `E` and no
explicit duration stores `duration_seconds = E - S` in whole seconds. -/
theorem create_duration_derivation (now S E : DT) (desc : String)
    (pid : Option Int) (bill : Bool) (tagIds : Option (List Int)) (s : Store)
    (_hS : S.Valid) (_hE : E.Valid) (_hlt : S.toSecs < E.toSecs) :
    (TimeEntryModel.create now (some S) desc pid (some (some E)) none bill tagIds s).map
        (fun p => p.1.duration_seconds) = some (some (E.toSecs - S.toSecs)) := by
  simp [TimeEntryModel.create, strptime]

/-- Witness for C4, the worked example of §8: 2024-01-15T09:00:00 to
2024-01-15T10:30:00 gives 5400 seconds. -/
theorem create_duration_derivation_witness :
    sampleStart.Valid ∧ sampleStop.Valid ∧ sampleStart.toSecs < sampleStop.toSecs
    ∧ (TimeEntryModel.create sampleNow (some sampleStart) "" none (some (some sampleStop))
        none false none emptyStore).map (fun p => p.1.duration_seconds)
      = some (some 5400) := by
  refine ⟨by decide, by decide, by decide, ?_⟩
  have h := create_duration_derivation sampleNow sampleStart sampleStop "" none false none
    emptyStore (by decide) (by decide) (by decide)
  rw [h]
  decide

/-! ### C8: the two billable-amount paths -/

/-- C8 counterexample: at a negative hourly rate the inline per-entry
amount of the grouped summaries and `calculate_billable_amount` differ
(one hour at rate -1, billable, gives -1 against 0), so the two paths are
not equivalent for all inputs. -/
theorem billable_amount_paths_counterexample :
    summary_entry_billable_amount
        ⟨1, "x", none, "No project", "#888888", none, "No client",
         ⟨2024, 1, 15, 9, 0, 0⟩, none, 3600, true, -1⟩
      ≠ calculate_billable_amount 3600 (-1) true := by
  unfold summary_entry_billable_amount calculate_billable_amount
  norm_num

/-- C8 amended: for every duration, billable flag and non-negative hourly
rate (the only rates the data model and UI admit), the per-entry amount
computed inside the grouped summary functions equals
`calculate_billable_amount`. -/
theorem billable_amount_paths_agree (row : FetchedRow)
    (hrate : 0 ≤ row.hourly_rate) :
    summary_entry_billable_amount row
      = calculate_billable_amount row.duration_seconds row.hourly_rate row.billable := by
  unfold summary_entry_billable_amount calculate_billable_amount
  cases hb : row.billable with
  | false => simp
  | true =>
    simp only [Bool.not_true, Bool.false_or, if_true]
    by_cases h : row.hourly_rate ≤ 0
    · have h0 : row.hourly_rate = 0 := le_antisymm h hrate
      simp [h, h0]
    · simp [h]

/-- Witness for C8 amended: two billable hours at rate 150 give 300 along
both paths. -/
theorem billable_amount_paths_agree_witness :
    summary_entry_billable_amount
        ⟨1, "x", none, "No project", "#888888", none, "No client",
         ⟨2024, 1, 15, 9, 0, 0⟩, none, 7200, true, 150⟩
      = calculate_billable_amount 7200 150 true
    ∧ calculate_billable_amount 7200 150 true = 300 :=
  ⟨billable_amount_paths_agree
      ⟨1, "x", none, "No project", "#888888", none, "No client",
       ⟨2024, 1, 15, 9, 0, 0⟩, none, 7200, true, 150⟩ (by norm_num),
   by unfold calculate_billable_amount; norm_num⟩

/-! ### C2: tag usage counts -/

/-- C2: `get_usage_count` returns the number of junction rows referencing
the tag, and the Tags page consults exactly this count for the pill
arguments, the edit-row label and the delete-confirmation sentence. -/
theorem get_usage_count_spec (s : Store) (t : Tag) :
    TagModel.get_usage_count t.id s
        = (s.tetags.filter (fun r => r.2 == t.id)).length
    ∧ (tag_pill_args t s).2 = TagModel.get_usage_count t.id s
    ∧ tag_edit_row_label t s
        = t.name ++ " — " ++ toString (TagModel.get_usage_count t.id s) ++ " "
          ++ (if TagModel.get_usage_count t.id s == 1 then "entry" else "entries")
    ∧ (TagModel.get_usage_count t.id s > 0 →
        delete_confirmation_suffix t.id s
          = " It will be removed from " ++ toString (TagModel.get_usage_count t.id s)
            ++ " time "
            ++ (if TagModel.get_usage_count t.id s == 1 then "entry" else "entries")
            ++ ".") := by
  refine ⟨?_, rfl, rfl, ?_⟩
  · exact List.countP_eq_length_filter _ _
  · intro h
    simp only [delete_confirmation_suffix, if_pos h]

/-- Witness for C2 at the sample store: the single junction row of tag 1
gives usage count 1 and the singular wording. -/
theorem get_usage_count_spec_witness :
    TagModel.get_usage_count 1 sampleStore = 1
    ∧ delete_confirmation_suffix 1 sampleStore
        = " It will be removed from " ++ toString (TagModel.get_usage_count 1 sampleStore)
          ++ " time "
          ++ (if TagModel.get_usage_count 1 sampleStore == 1 then "entry" else "entries")
          ++ "." :=
  ⟨by decide,
   (get_usage_count_spec sampleStore ⟨1, "deep-work", some sampleNow⟩).2.2.2 (by decide)⟩

/-! ### C6: import failure paths -/

/-- C6: `import_all_data` fails with the "Invalid JSON" error carrying the
parser detail on malformed text, and with the top-level-object error when
the parsed value is not an object; in both cases the database is returned
untouched (no row deleted or inserted). -/
theorem import_all_data_error_paths (db : RawDB) (exc : String) (j : Json)
    (hj : j.isObj = false) :
    import_all_data (.error exc) db = (db, .error ("Invalid JSON: " ++ exc))
    ∧ import_all_data (.ok j) db
        = (db, .error "Expected a JSON object at the top level.") := by
  constructor
  · rfl
  · simp [import_all_data, hj]

/-- Witness for C6: a malformed-text error and a top-level JSON array both
leave the sample database unchanged. -/
theorem import_all_data_error_paths_witness :
    import_all_data (.error "Expecting value: line 1 column 1 (char 0)") sampleRawDB
      = (sampleRawDB, .error "Invalid JSON: Expecting value: line 1 column 1 (char 0)")
    ∧ import_all_data (.ok (.arr [])) sampleRawDB
      = (sampleRawDB, .error "Expected a JSON object at the top level.") :=
  import_all_data_error_paths sampleRawDB "Expecting value: line 1 column 1 (char 0)"
    (.arr []) rfl

/-! ### C3: the stop_time/duration_seconds pairing invariant -/

/-- C3 counterexample: `create` called with an explicit `duration_seconds`
and no `stop_time` stores an entry with `duration_seconds` present and
`stop_time` absent, so the invariant does not hold of every entry reachable
through the model operations. -/
theorem stop_duration_invariant_counterexample :
    (TimeEntryModel.create sampleNow (some sampleStart) "" none none (some 300) false
        none emptyStore).map (fun p => (p.1.stop_time, p.1.duration_seconds))
      = some (none, some 300) := by
  decide

/-- C3 amended: `stop_entry` always returns an entry with both fields
present; `create` establishes the invariant provided `duration_seconds` is
not supplied without `stop_time`; `update` preserves it (over a store
satisfying it) provided its `stop_time` and `duration_seconds` arguments
are either both left unchanged or both supplied with matching presence. -/
theorem stop_duration_invariant :
    (∀ (now : DT) (st : Timestr) (desc : String) (pid : Option Int)
       (stop : Option Timestr) (dur : Option Int) (bill : Bool)
       (tagIds : Option (List Int)) (s : Store) (e : TimeEntry) (s2 : Store),
       (stop.isSome ∨ dur = none) →
       TimeEntryModel.create now st desc pid stop dur bill tagIds s = some (e, s2) →
       (e.stop_time.isSome ↔ e.duration_seconds.isSome))
    ∧ (∀ (now : DT) (eid : Int) (stop : Option Timestr) (s : Store)
         (e : TimeEntry) (s2 : Store),
         TimeEntryModel.stop_entry now eid stop s = some (some e, s2) →
         e.stop_time.isSome ∧ e.duration_seconds.isSome)
    ∧ (∀ (now : DT) (eid : Int) (desc : Option String) (pidArg : Arg (Option Int))
         (st : Option Timestr) (stopArg : Arg (Option Timestr))
         (durArg : Arg (Option Int)) (bill : Option Bool)
         (tagIds : Option (List Int)) (s : Store) (e : TimeEntry) (s2 : Store),
         (∀ ex ∈ s.entries, (ex.stop_time.isSome ↔ ex.duration_seconds.isSome)) →
         (stopArg = .keep ∧ durArg = .keep
           ∨ ∃ v d, stopArg = .set v ∧ durArg = .set d ∧ v.isSome = d.isSome) →
         TimeEntryModel.update now eid desc pidArg st stopArg durArg bill tagIds s
           = (some e, s2) →
         (e.stop_time.isSome ↔ e.duration_seconds.isSome)) := by
  refine ⟨?_, ?_, ?_⟩
  · intro now st desc pid stop dur bill tagIds s e s2 hargs hcreate
    unfold TimeEntryModel.create at hcreate
    match hstop : stop, hdur : dur with
    | some stv, none =>
      cases hs : strptime st with
      | none => simp [hstop, hdur, hs] at hcreate
      | some sdt =>
        cases he : strptime stv with
        | none => simp [hstop, hdur, hs, he] at hcreate
        | some edt =>
          simp only [hstop, hdur, hs, he, Option.some.injEq, Prod.mk.injEq] at hcreate
          obtain ⟨he2, _⟩ := hcreate
          subst he2
          simp
    | some stv, some d =>
      simp only [Option.some.injEq, Prod.mk.injEq] at hcreate
      obtain ⟨he2, _⟩ := hcreate
      subst he2
      simp
    | none, none =>
      simp only [Option.some.injEq, Prod.mk.injEq] at hcreate
      obtain ⟨he2, _⟩ := hcreate
      subst he2
      simp
    | none, some d =>
      rcases hargs with h | h
      · simp at h
      · simp at h
  · intro now eid stop s e s2 hstop
    unfold TimeEntryModel.stop_entry at hstop
    cases hfind : TimeEntryModel.get_by_id eid s with
    | none => simp [hfind] at hstop
    | some existing =>
      simp only [hfind] at hstop
      split at hstop
      · simp only [Option.some.injEq, Prod.mk.injEq] at hstop
        obtain ⟨he2, _⟩ := hstop
        subst he2
        simp
      · simp at hstop
  · intro now eid desc pidArg st stopArg durArg bill tagIds s e s2 hinv hargs hupd
    unfold TimeEntryModel.update at hupd
    cases hfind : TimeEntryModel.get_by_id eid s with
    | none => simp [hfind] at hupd
    | some existing =>
      have hex : existing.stop_time.isSome ↔ existing.duration_seconds.isSome :=
        hinv existing (List.mem_of_find?_eq_some hfind)
      simp only [hfind, Option.some.injEq, Prod.mk.injEq] at hupd
      obtain ⟨he2, _⟩ := hupd
      subst he2
      rcases hargs with ⟨hk1, hk2⟩ | ⟨v, d, hv, hd, hvd⟩
      · subst hk1; subst hk2; simpa using hex
      · subst hv; subst hd
        simpa using hvd

/-- Witness for C3 amended: each conjunct applied at concrete inputs —
`create` with stop and no duration on the empty store, `stop_entry` on the
sample store entry, and an `update` that sets both fields to present
values. -/
theorem stop_duration_invariant_witness :
    (createdSample.stop_time.isSome ↔ createdSample.duration_seconds.isSome)
    ∧ (sampleEntry.stop_time.isSome ∧ sampleEntry.duration_seconds.isSome)
    ∧ (sampleEntry.stop_time.isSome ↔ sampleEntry.duration_seconds.isSome) :=
  ⟨stop_duration_invariant.1 sampleNow (some sampleStart) "" none (some (some sampleStop))
     none false none emptyStore createdSample
     { emptyStore with entries := [createdSample] } (Or.inl rfl) (by decide),
   stop_duration_invariant.2.1 sampleNow 1 (some (some sampleStop)) sampleStore
     sampleEntry sampleStore (by decide),
   stop_duration_invariant.2.2 sampleNow 1 none .keep none (.set (some (some sampleStop)))
     (.set (some 5400)) none none sampleStore sampleEntry sampleStore (by decide)
     (Or.inr ⟨some (some sampleStop), some 5400, rfl, rfl, rfl⟩) (by decide)⟩

/-! ### C7: the weekly pivot shape -/

/-- C7: for every non-empty filtered range, the weekly pivot consists of
project rows followed by a final row labeled Total; every project row
carries all seven day columns, each equal to the (possibly empty, hence
zero) sum of hours of the fetched entries of that project on that weekday,
and a Total column equal to its row sum; the project rows are sorted
descending by Total; and the final row holds the column-wise sums over all
project rows in every day column and in the Total column. -/
theorem weekly_report_shape (s : Store) (d1 d2 : DateD) (f : Filters)
    (hne : fetch_entries_df s d1 d2 f ≠ []) :
    ∃ rows totals, weekly_report s d1 d2 f = rows ++ [totals]
      ∧ totals.project_name = "Total"
      ∧ (∀ r ∈ rows, ∀ i : Fin 7,
          r.days i = pivotCell (fetch_entries_df s d1 d2 f) r.project_name i)
      ∧ (∀ r ∈ rows, r.total = ∑ i : Fin 7, r.days i)
      ∧ List.Sorted totalDescLE rows
      ∧ (∀ i : Fin 7, totals.days i = (rows.map (fun r => r.days i)).sum)
      ∧ totals.total = (rows.map PivotRow.total).sum := by
  have hmem : ∀ r ∈ List.insertionSort totalDescLE
      (pivotRowsOf (fetch_entries_df s d1 d2 f)),
      ∃ p, r = { project_name := p
                 days := fun i => pivotCell (fetch_entries_df s d1 d2 f) p i
                 total := ∑ i : Fin 7, pivotCell (fetch_entries_df s d1 d2 f) p i } := by
    intro r hr
    have hr2 : r ∈ pivotRowsOf (fetch_entries_df s d1 d2 f) :=
      (List.perm_insertionSort totalDescLE _).mem_iff.mp hr
    simp only [pivotRowsOf, List.mem_map] at hr2
    obtain ⟨p, _, heq⟩ := hr2
    exact ⟨p, heq.symm⟩
  refine ⟨List.insertionSort totalDescLE (pivotRowsOf (fetch_entries_df s d1 d2 f)),
    pivotTotalsRow (List.insertionSort totalDescLE
      (pivotRowsOf (fetch_entries_df s d1 d2 f))), ?_, rfl, ?_, ?_, ?_, fun i => rfl, rfl⟩
  · unfold weekly_report
    rw [if_neg (by simpa [List.isEmpty_iff] using hne)]
  · intro r hr i
    obtain ⟨p, hp⟩ := hmem r hr
    subst hp
    rfl
  · intro r hr
    obtain ⟨p, hp⟩ := hmem r hr
    subst hp
    rfl
  · exact List.sorted_insertionSort totalDescLE _

/-- Witness for C7: the sample store over the week of 2024-01-15 (a Monday)
fetches one entry, so the theorem applies. -/
theorem weekly_report_shape_witness :
    fetch_entries_df sampleStore ⟨2024, 1, 15⟩ ⟨2024, 1, 21⟩ ⟨none, none, none, none⟩ ≠ []
    ∧ ∃ rows totals,
        weekly_report sampleStore ⟨2024, 1, 15⟩ ⟨2024, 1, 21⟩ ⟨none, none, none, none⟩
          = rows ++ [totals]
        ∧ totals.project_name = "Total"
        ∧ (∀ r ∈ rows, ∀ i : Fin 7,
            r.days i = pivotCell (fetch_entries_df sampleStore ⟨2024, 1, 15⟩ ⟨2024, 1, 21⟩
              ⟨none, none, none, none⟩) r.project_name i)
        ∧ (∀ r ∈ rows, r.total = ∑ i : Fin 7, r.days i)
        ∧ List.Sorted totalDescLE rows
        ∧ (∀ i : Fin 7, totals.days i = (rows.map (fun r => r.days i)).sum)
        ∧ totals.total = (rows.map PivotRow.total).sum :=
  ⟨by decide,
   weekly_report_shape sampleStore ⟨2024, 1, 15⟩ ⟨2024, 1, 21⟩ ⟨none, none, none, none⟩
     (by decide)⟩

/-! ### C5: backup round trip -/

/-- Normalization a row undergoes in one export/import cycle (an integral
REAL value is stored back as an INTEGER). -/
def normRow (r : Row) : Row :=
  r.map (fun v => jsonToValue (valueToJson v))

/-- The insert loop applied to an exported table recovers the rows up to
`normRow`, together with the row count. -/
theorem importRows_exported (cols : List String) (rows : List Row)
    (hnd : cols.Nodup) (hlen : ∀ r ∈ rows, List.length r = cols.length) :
    importRows (rows.map (fun r => Json.obj (cols.zip (r.map valueToJson))))
      = (rows.map normRow, rows.length) := by
  cases rows with
  | nil => rfl
  | cons r rest =>
    have hcore : ∀ rj ∈ r :: rest,
        cols.map (fun c => jsonToValue ((Json.obj (cols.zip (rj.map valueToJson))).getD c))
          = normRow rj := by
      intro rj hj
      have hv : (rj.map valueToJson).length = cols.length := by
        simp [hlen rj hj]
      have h1 : cols.map (fun c => jsonToValue ((Json.obj (cols.zip (rj.map valueToJson))).getD c))
          = (cols.map (fun c => ((cols.zip (rj.map valueToJson)).lookup c).getD Json.null)).map
              jsonToValue := by
        rw [List.map_map]
        rfl
      rw [h1, map_lookup_zip cols _ hnd hv, List.map_map]
      rfl
    have hkeys : (Json.obj (cols.zip (r.map valueToJson))).keys = cols := by
      simp only [Json.keys]
      exact List.map_fst_zip _ _ (by simp [hlen r (by simp)])
    simp only [List.map_cons, importRows, hkeys]
    rw [Prod.mk.injEq]
    refine ⟨?_, by simp⟩
    rw [List.cons.injEq]
    refine ⟨hcore r (by simp), ?_⟩
    rw [List.map_map]
    exact List.map_congr_left (fun rj hj => hcore rj (List.mem_cons_of_mem r hj))

/-- Re-exporting normalized rows gives the original exported JSON. -/
theorem exportTable_norm (cols : List String) (rows : List Row) :
    exportTable cols (rows.map normRow) = exportTable cols rows := by
  unfold exportTable
  rw [List.map_map]
  congr 1
  apply List.map_congr_left
  intro r _
  show Json.obj (cols.zip ((normRow r).map valueToJson)) = Json.obj (cols.zip (r.map valueToJson))
  congr 1
  congr 1
  rw [normRow, List.map_map]
  exact List.map_congr_left (fun v _ => valueToJson_jsonToValue_valueToJson v)

/-- The column lists of the six tables have no repeated column. -/
theorem tableCols_nodup :
    ∀ t ∈ ["clients", "projects", "tags", "time_entries", "time_entry_tags",
           "settings"], (tableCols t).Nodup := by
  decide

/-- The effect of the insert loop on one table of an exported backup. -/
theorem importTable_export (db : RawDB) (t : String)
    (ht : t ∈ ["clients", "projects", "tags", "time_entries", "time_entry_tags",
               "settings"])
    (hnd : (tableCols t).Nodup)
    (hlen : ∀ r ∈ db.table t, List.length r = (tableCols t).length) :
    importTable (export_all_data db) t
      = ((db.table t).map normRow, (db.table t).length) := by
  have hget : (export_all_data db).getTable t
      = (db.table t).map (fun r => Json.obj ((tableCols t).zip (r.map valueToJson))) := by
    fin_cases ht <;> rfl
  rw [show importTable (export_all_data db) t
      = importRows ((export_all_data db).getTable t) from rfl, hget]
  exact importRows_exported _ _ hnd hlen

/-- C5: importing the string produced by `export_all_data` succeeds with
the per-table row counts, and a second `export_all_data` yields JSON
identical, per table and per row, to the first export.  `db.WF` states
that every row has its schema arity, an invariant of every reachable
database. -/
theorem export_import_round_trip (db : RawDB) (hwf : db.WF) :
    (import_all_data (.ok (export_all_data db)) db).2
      = .ok [("clients", db.clients.length), ("projects", db.projects.length),
             ("tags", db.tags.length), ("time_entries", db.time_entries.length),
             ("time_entry_tags", db.time_entry_tags.length),
             ("settings", db.settings.length)]
    ∧ export_all_data (import_all_data (.ok (export_all_data db)) db).1
      = export_all_data db := by
  have h : ∀ t ∈ (["clients", "projects", "tags", "time_entries", "time_entry_tags",
      "settings"] : List String), importTable (export_all_data db) t
        = ((db.table t).map normRow, (db.table t).length) :=
    fun t ht => importTable_export db t ht (tableCols_nodup t ht) (hwf t ht)
  have hobj : (export_all_data db).isObj = true := rfl
  have himp : import_all_data (.ok (export_all_data db)) db
      = ({ clients := db.clients.map normRow, projects := db.projects.map normRow
           tags := db.tags.map normRow, time_entries := db.time_entries.map normRow
           time_entry_tags := db.time_entry_tags.map normRow
           settings := db.settings.map normRow },
         .ok [("clients", db.clients.length), ("projects", db.projects.length),
              ("tags", db.tags.length), ("time_entries", db.time_entries.length),
              ("time_entry_tags", db.time_entry_tags.length),
              ("settings", db.settings.length)]) := by
    simp only [import_all_data, hobj, Bool.not_true, Bool.false_eq_true, if_false,
      h "clients" (by simp), h "projects" (by simp), h "tags" (by simp),
      h "time_entries" (by simp), h "time_entry_tags" (by simp),
      h "settings" (by simp)]
    rfl
  constructor
  · rw [himp]
  · rw [himp]
    simp only [export_all_data, List.map_cons, List.map_nil]
    have htab : ∀ t, RawDB.table
        { clients := db.clients.map normRow, projects := db.projects.map normRow
          tags := db.tags.map normRow, time_entries := db.time_entries.map normRow
          time_entry_tags := db.time_entry_tags.map normRow
          settings := db.settings.map normRow } t = (db.table t).map normRow := by
      intro t
      unfold RawDB.table
      split <;> rfl
    rw [htab, htab, htab, htab, htab, htab]
    rw [show db.table "clients" = db.clients from rfl,
        show db.table "projects" = db.projects from rfl,
        show db.table "tags" = db.tags from rfl,
        show db.table "time_entries" = db.time_entries from rfl,
        show db.table "time_entry_tags" = db.time_entry_tags from rfl,
        show db.table "settings" = db.settings from rfl,
        exportTable_norm, exportTable_norm, exportTable_norm, exportTable_norm,
        exportTable_norm, exportTable_norm]

/-- Witness for C5 at the one-row-per-table sample database. -/
theorem export_import_round_trip_witness :
    sampleRawDB.WF
    ∧ (import_all_data (.ok (export_all_data sampleRawDB)) sampleRawDB).2
      = .ok [("clients", 1), ("projects", 1), ("tags", 1), ("time_entries", 1),
             ("time_entry_tags", 1), ("settings", 1)]
    ∧ export_all_data (import_all_data (.ok (export_all_data sampleRawDB)) sampleRawDB).1
      = export_all_data sampleRawDB :=
  ⟨by decide,
   (export_import_round_trip sampleRawDB (by decide)).1,
   (export_import_round_trip sampleRawDB (by decide)).2⟩

/-! ### C1: the client archive guard -/

/-- C1: `has_active_projects` is true exactly when a non-archived project
references the client; while it is true the Clients page archive action
returns an error and leaves the store (hence the archived flag) unchanged;
once every such project is archived, the same action succeeds and sets the
client archived. -/
theorem client_archive_guard (s : Store) (c : Client) (now now2 : DT) :
    (ClientModel.has_active_projects c.id s = true ↔
       ∃ p ∈ s.projects, p.client_id = some c.id ∧ p.archived = false)
    ∧ (ClientModel.has_active_projects c.id s = true →
        ∃ msg, archive_client_action now c s = (some msg, s))
    ∧ (c ∈ s.clients →
        (archive_client_action now2 c (archive_projects_of now c.id s)).1 = none
        ∧ ∀ cl ∈ (archive_client_action now2 c (archive_projects_of now c.id s)).2.clients,
            cl.id = c.id → cl.archived = true) := by
  refine ⟨?_, ?_, ?_⟩
  · unfold ClientModel.has_active_projects
    simp [List.any_eq_true, Bool.and_eq_true, Bool.not_eq_true']
  · intro h
    refine ⟨"Cannot archive " ++ c.name
        ++ ": this client has active (non-archived) projects. "
        ++ "Archive or reassign those projects first.", ?_⟩
    simp [archive_client_action, h]
  · intro hc
    have hfalse : ClientModel.has_active_projects c.id (archive_projects_of now c.id s)
        = false := by
      unfold ClientModel.has_active_projects archive_projects_of
      simp only [List.any_map, List.any_eq_false, Function.comp]
      intro p _
      by_cases hcond : (p.client_id == some c.id && !p.archived) = true
      · simp [hcond]
      · simp only [Bool.not_eq_true] at hcond
        simp [hcond]
    have hclients : (archive_projects_of now c.id s).clients = s.clients := rfl
    have hfind : ((archive_projects_of now c.id s).clients.find?
        (fun x => x.id == c.id)).isSome := by
      rw [hclients]
      exact List.find?_isSome.mpr ⟨c, hc, by simp⟩
    obtain ⟨existing, hex⟩ := Option.isSome_iff_exists.mp hfind
    constructor
    · simp [archive_client_action, hfalse]
    · intro cl hcl hid
      simp only [archive_client_action, hfalse, Bool.false_eq_true, if_false,
        ClientModel.update, ClientModel.get_by_id, hex] at hcl
      simp only [List.mem_map] at hcl
      obtain ⟨cl0, _, heq⟩ := hcl
      by_cases h0 : (cl0.id == c.id) = true
      · rw [← heq]; simp [h0]
      · rw [← heq] at hid
        simp [h0] at hid
        exact absurd hid (by simpa using h0)

/-- Witness for C1 at the sample store: the archive action on the client
with an active project errors and changes nothing; after archiving the
project it succeeds. -/
theorem client_archive_guard_witness :
    ClientModel.has_active_projects sampleClient.id sampleStore = true
    ∧ (∃ msg, archive_client_action sampleNow sampleClient sampleStore
        = (some msg, sampleStore))
    ∧ (archive_client_action sampleNow sampleClient
        (archive_projects_of sampleNow sampleClient.id sampleStore)).1 = none :=
  ⟨by decide,
   (client_archive_guard sampleStore sampleClient sampleNow sampleNow).2.1 (by decide),
   ((client_archive_guard sampleStore sampleClient sampleNow sampleNow).2.2 (by decide)).1⟩

end Timeflow
